import Mathlib

/-!
Verification of the clock-configuration module `src/clocks/l_g.rs` of the
stm32-hal crate.  The Rust source is compiled per chip family via cfg
features; this development embeds the L4 build (features `l4` + `l4x6`),
which is the family the spec's concrete numbers refer to (80 MHz ceiling,
5-tier flash wait-state table, PLL multiplier range 7..=86).  The flash
wait-state tables of the other families (L5, G0, G4) are also embedded,
since they are pure functions of the HCLK frequency.

u32 values are modelled as `Nat`; the one place where u32 overflow can
matter (multiplications) carries an explicit `% 4294967296`.  Truncating
u32 division coincides with `Nat` division.

Hardware interaction is modelled as a trace of register-write events
(`RegWrite`); the busy-wait polls of ready flags are reads and do not
appear in the trace.  `panic!` in the runtime mutators is modelled by a
dedicated result constructor carrying the writes performed before the
panic (always `[]`, since the source panics before touching a register).
-/

/-- `Clk48Src` (l_g.rs lines 15-24, L4/L5 variant): input source for the
48 MHz USB clock. -/
inductive Clk48Src
  | Hsi48
  | PllSai1
  | Pllq
  | Msi
deriving DecidableEq

/-- Field values of `Clk48Src` as in the Rust `repr(u8)` discriminants. -/
def Clk48Src.bits : Clk48Src → Nat
  | .Hsi48 => 0b00
  | .PllSai1 => 0b01
  | .Pllq => 0b10
  | .Msi => 0b11

/-- `MsiRange` (l_g.rs lines 159-172), the discrete MSI speed selector. -/
inductive MsiRange
  | R100k
  | R200k
  | R400k
  | R800k
  | R1M
  | R2M
  | R4M
  | R8M
  | R16M
  | R24M
  | R32M
  | R48M
deriving DecidableEq

/-- `MsiRange::value` (l_g.rs lines 177-192): approximate frequency in Hz. -/
def MsiRange.value : MsiRange → Nat
  | .R100k => 100000
  | .R200k => 200000
  | .R400k => 400000
  | .R800k => 800000
  | .R1M => 1000000
  | .R2M => 2000000
  | .R4M => 4000000
  | .R8M => 8000000
  | .R16M => 16000000
  | .R24M => 24000000
  | .R32M => 32000000
  | .R48M => 48000000

/-- The `repr(u8)` discriminants of `MsiRange` (`range as u8` in the source). -/
def MsiRange.bits : MsiRange → Nat
  | .R100k => 0b0000
  | .R200k => 0b0001
  | .R400k => 0b0010
  | .R800k => 0b0011
  | .R1M => 0b0100
  | .R2M => 0b0101
  | .R4M => 0b0110
  | .R8M => 0b0111
  | .R16M => 0b1000
  | .R24M => 0b1001
  | .R32M => 0b1010
  | .R48M => 0b1011

/-- `PllSrc` (l_g.rs lines 28-33, non-G0/G4 variant): what feeds the PLL. -/
inductive PllSrc
  | none
  | Msi (range : MsiRange)
  | Hsi
  | Hse (freq : Nat)
deriving DecidableEq

/-- `PllSrc::bits` (l_g.rs lines 70-85, L4 arm). -/
def PllSrc.bits : PllSrc → Nat
  | .none => 0b00
  | .Msi _ => 0b01
  | .Hsi => 0b10
  | .Hse _ => 0b11

/-- `StopWuck` (l_g.rs lines 47-50): system clock used when exiting Stop mode. -/
inductive StopWuck
  | Msi
  | Hsi
deriving DecidableEq

/-- The `repr(u8)` discriminants of `StopWuck`. -/
def StopWuck.bits : StopWuck → Nat
  | .Msi => 0
  | .Hsi => 1

/-- `InputSrc` (l_g.rs lines 132-138, L4/L5 variant): system clock source. -/
inductive InputSrc
  | Msi (range : MsiRange)
  | Hsi
  | Hse (freq : Nat)
  | Pll (src : PllSrc)
deriving DecidableEq

/-- `InputSrc::bits` (l_g.rs lines 143-150, L4/L5 arm). -/
def InputSrc.bits : InputSrc → Nat
  | .Msi _ => 0b00
  | .Hsi => 0b01
  | .Hse _ => 0b10
  | .Pll _ => 0b11

/-- `Pllm` (l_g.rs lines 227-236, non-G4 variant): PLL input divider. -/
inductive Pllm
  | Div1
  | Div2
  | Div3
  | Div4
  | Div5
  | Div6
  | Div7
  | Div8
deriving DecidableEq

/-- `Pllm::value` (l_g.rs lines 262-272). -/
def Pllm.value : Pllm → Nat
  | .Div1 => 1
  | .Div2 => 2
  | .Div3 => 3
  | .Div4 => 4
  | .Div5 => 5
  | .Div6 => 6
  | .Div7 => 7
  | .Div8 => 8

/-- The `repr(u8)` discriminants of `Pllm` (`self.pllm as u8`). -/
def Pllm.bits : Pllm → Nat
  | .Div1 => 0b000
  | .Div2 => 0b001
  | .Div3 => 0b010
  | .Div4 => 0b011
  | .Div5 => 0b100
  | .Div6 => 0b101
  | .Div7 => 0b110
  | .Div8 => 0b111

/-- `Pllr` (l_g.rs lines 329-334, non-G0 variant): PLL output divider. -/
inductive Pllr
  | Div2
  | Div4
  | Div6
  | Div8
deriving DecidableEq

/-- `Pllr::value` (l_g.rs lines 338-345). -/
def Pllr.value : Pllr → Nat
  | .Div2 => 2
  | .Div4 => 4
  | .Div6 => 6
  | .Div8 => 8

/-- The `repr(u8)` discriminants of `Pllr` (`self.pllr as u8`). -/
def Pllr.bits : Pllr → Nat
  | .Div2 => 0b00
  | .Div4 => 0b01
  | .Div6 => 0b10
  | .Div8 => 0b11

/-- `HclkPrescaler` (l_g.rs lines 351-361): AHB prescaler. -/
inductive HclkPrescaler
  | Div1
  | Div2
  | Div4
  | Div8
  | Div16
  | Div64
  | Div128
  | Div256
  | Div512
deriving DecidableEq

/-- `HclkPrescaler::value` (l_g.rs lines 364-376). -/
def HclkPrescaler.value : HclkPrescaler → Nat
  | .Div1 => 1
  | .Div2 => 2
  | .Div4 => 4
  | .Div8 => 8
  | .Div16 => 16
  | .Div64 => 64
  | .Div128 => 128
  | .Div256 => 256
  | .Div512 => 512

/-- The `repr(u8)` discriminants of `HclkPrescaler`. -/
def HclkPrescaler.bits : HclkPrescaler → Nat
  | .Div1 => 0b0000
  | .Div2 => 0b1000
  | .Div4 => 0b1001
  | .Div8 => 0b1010
  | .Div16 => 0b1011
  | .Div64 => 0b1100
  | .Div128 => 0b1101
  | .Div256 => 0b1110
  | .Div512 => 0b1111

/-- `ApbPrescaler` (l_g.rs lines 382-388): APB1/APB2 prescaler. -/
inductive ApbPrescaler
  | Div1
  | Div2
  | Div4
  | Div8
  | Div16
deriving DecidableEq

/-- `ApbPrescaler::value` (l_g.rs lines 391-399). -/
def ApbPrescaler.value : ApbPrescaler → Nat
  | .Div1 => 1
  | .Div2 => 2
  | .Div4 => 4
  | .Div8 => 8
  | .Div16 => 16

/-- The `repr(u8)` discriminants of `ApbPrescaler`. -/
def ApbPrescaler.bits : ApbPrescaler → Nat
  | .Div1 => 0b000
  | .Div2 => 0b100
  | .Div4 => 0b101
  | .Div8 => 0b110
  | .Div16 => 0b111

/-- `ClocksValid` (crate `traits` module): result of `validate_speeds`. -/
inductive ClocksValid
  | Valid
  | NotValid
deriving DecidableEq

/-- `SpeedError` (crate `clocks` module): returned by `setup` on failed
validation. -/
structure SpeedError where
deriving DecidableEq

/-- `Clocks` (l_g.rs lines 403-439, with the fields present in the L4
build): the clock-tree configuration. u8 fields are modelled as `Nat`. -/
structure Clocks where
  input_src : InputSrc
  pllm : Pllm
  plln : Nat
  pll_sai1_mul : Nat
  pll_sai2_mul : Nat
  pllr : Pllr
  hclk_prescaler : HclkPrescaler
  apb1_prescaler : ApbPrescaler
  apb2_prescaler : ApbPrescaler
  clk48_src : Clk48Src
  sai1_enabled : Bool
  sai2_enabled : Bool
  hse_bypass : Bool
  security_system : Bool
  hsi48_on : Bool
  stop_wuck : StopWuck
deriving DecidableEq

/-- `impl Default for Clocks` (l_g.rs lines 1086-1122), L4 arms: HSI-fed
PLL with m=2, n=20, r=2, all prescalers Div1. -/
def Clocks.defaultCfg : Clocks where
  input_src := InputSrc.Pll PllSrc.Hsi
  pllm := Pllm.Div2
  plln := 20
  pll_sai1_mul := 8
  pll_sai2_mul := 8
  pllr := Pllr.Div2
  hclk_prescaler := HclkPrescaler.Div1
  apb1_prescaler := ApbPrescaler.Div1
  apb2_prescaler := ApbPrescaler.Div1
  clk48_src := Clk48Src.Msi
  sai1_enabled := false
  sai2_enabled := false
  hse_bypass := false
  security_system := false
  hsi48_on := false
  stop_wuck := StopWuck.Msi

/-- `calc_sysclock` (l_g.rs lines 1126-1166, L4 arms): returns
`(input_freq, sysclk)` in Hz.  The u32 multiplication in the PLL branch
carries an explicit wrap `% 4294967296`; u32 divisions are truncating,
as `Nat` division is. -/
def calc_sysclock (input_src : InputSrc) (pllm : Pllm) (plln : Nat) (pllr : Pllr) :
    Nat × Nat :=
  match input_src with
  | InputSrc.Pll pll_src =>
    let input_freq :=
      match pll_src with
      | PllSrc.Msi range => range.value
      | PllSrc.Hsi => 16000000
      | PllSrc.Hse freq => freq
      | PllSrc.none => 0
    (input_freq, input_freq / pllm.value * plln % 4294967296 / pllr.value)
  | InputSrc.Msi range => (range.value, range.value)
  | InputSrc.Hsi => (16000000, 16000000)
  | InputSrc.Hse freq => (freq, freq)

/-- The inner match of `calc_sysclock`'s PLL branch (l_g.rs lines
1130-1136): the resolved PLL-source frequency. -/
def pll_input_freq : PllSrc → Nat
  | PllSrc.Msi range => range.value
  | PllSrc.Hsi => 16000000
  | PllSrc.Hse freq => freq
  | PllSrc.none => 0

/-- `ClockCfg::sysclk for Clocks` (l_g.rs lines 947-950). -/
def Clocks.sysclk (c : Clocks) : Nat :=
  (calc_sysclock c.input_src c.pllm c.plln c.pllr).2

/-- `ClockCfg::hclk for Clocks` (l_g.rs lines 952-954). -/
def Clocks.hclk (c : Clocks) : Nat :=
  c.sysclk / c.hclk_prescaler.value

/-- `ClockCfg::apb1 for Clocks` (l_g.rs lines 981-983). -/
def Clocks.apb1 (c : Clocks) : Nat :=
  c.hclk / c.apb1_prescaler.value

/-- `ClockCfg::apb1_timer for Clocks` (l_g.rs lines 985-995); the source's
`if let ApbPrescaler::Div1` test is an equality test on a fieldless
variant; the u32 doubling carries an explicit wrap. -/
def Clocks.apb1_timer (c : Clocks) : Nat :=
  if c.apb1_prescaler = ApbPrescaler.Div1 then c.apb1
  else c.apb1 * 2 % 4294967296

/-- `ClockCfg::apb2 for Clocks` (l_g.rs lines 1007-1009, non-G0 arm). -/
def Clocks.apb2 (c : Clocks) : Nat :=
  c.hclk / c.apb2_prescaler.value

/-- `ClockCfg::apb2_timer for Clocks` (l_g.rs lines 1011-1017). -/
def Clocks.apb2_timer (c : Clocks) : Nat :=
  if c.apb2_prescaler = ApbPrescaler.Div1 then c.apb2
  else c.apb2 * 2 % 4294967296

/-- `ClockCfg::validate_speeds for Clocks` (l_g.rs lines 1021-1080), L4
arms: `max_clock = 80_000_000`, multiplier range 7..=86 checked first
with an early return, then the four frequency ceilings accumulate into
`result`. -/
def Clocks.validate_speeds (c : Clocks) : ClocksValid :=
  if c.plln < 7 ∨ 86 < c.plln ∨ c.pll_sai1_mul < 7 ∨ 86 < c.pll_sai1_mul
      ∨ c.pll_sai2_mul < 7 ∨ 86 < c.pll_sai2_mul then
    ClocksValid.NotValid
  else
    let max_clock := 80000000
    let result := ClocksValid.Valid
    let result := if max_clock < c.sysclk then ClocksValid.NotValid else result
    let result := if max_clock < c.hclk then ClocksValid.NotValid else result
    let result := if max_clock < c.apb1 then ClocksValid.NotValid else result
    let result := if max_clock < c.apb2 then ClocksValid.NotValid else result
    result

/-- Flash wait-state selection for L4 (l_g.rs lines 463-476): the if-chain
written into `FLASH_ACR.latency` by `setup`, as a function of HCLK. -/
def flash_latency_l4 (hclk : Nat) : Nat :=
  if hclk ≤ 16000000 then 0
  else if hclk ≤ 32000000 then 1
  else if hclk ≤ 48000000 then 2
  else if hclk ≤ 64000000 then 3
  else 4

/-- Flash wait-state selection for L5 (l_g.rs lines 477-492). -/
def flash_latency_l5 (hclk : Nat) : Nat :=
  if hclk ≤ 20000000 then 0
  else if hclk ≤ 40000000 then 1
  else if hclk ≤ 60000000 then 2
  else if hclk ≤ 80000000 then 3
  else if hclk ≤ 100000000 then 4
  else 5

/-- Flash wait-state selection for G0 (l_g.rs lines 493-502). -/
def flash_latency_g0 (hclk : Nat) : Nat :=
  if hclk ≤ 24000000 then 0
  else if hclk ≤ 48000000 then 1
  else 2

/-- Flash wait-state selection for G4 (l_g.rs lines 503-517). -/
def flash_latency_g4 (hclk : Nat) : Nat :=
  if hclk ≤ 34000000 then 0
  else if hclk ≤ 68000000 then 1
  else if hclk ≤ 102000000 then 2
  else if hclk ≤ 136000000 then 3
  else 4

/-- One register-field write performed by the module.  Each constructor
corresponds to one `modify` call in the source (the waits on ready flags
are reads and are not recorded). -/
inductive RegWrite
  /-- `flash.acr.modify` setting the `latency` field. -/
  | latency (ws : Nat)
  /-- `rcc.cr.modify` clearing `msion`. -/
  | msiOff
  /-- `rcc.cr.modify` setting `msirange`, `msirgsel` and `msion` together. -/
  | msiConfig (range : Nat)
  /-- `rcc.cr.modify` setting `hseon`. -/
  | hseOn
  /-- `rcc.cr.modify` setting `hsion`. -/
  | hsiOn
  /-- `rcc.cr.modify` writing `hsebyp`. -/
  | hseBypass (b : Bool)
  /-- `rcc.cr.modify` writing `pllon`. -/
  | pllOn (b : Bool)
  /-- `rcc.pllcfgr.modify` writing `pllsrc`, `plln`, `pllm`, `pllr`. -/
  | pllCfg (src plln pllm pllr : Nat)
  /-- `rcc.pllsai1cfgr.modify` writing `pllsai1n`. -/
  | pllSai1N (n : Nat)
  /-- `rcc.pllsai2cfgr.modify` writing `pllsai2n`. -/
  | pllSai2N (n : Nat)
  /-- `rcc.cr.modify` setting `pllsai1on`. -/
  | pllSai1On
  /-- `rcc.cr.modify` setting `pllsai2on`. -/
  | pllSai2On
  /-- `rcc.pllcfgr.modify` setting `pllpen`, `pllqen`, `pllren`. -/
  | pllOutputsOn
  /-- `rcc.pllsai1cfgr.modify` setting `pllsai1pen`, `pllsai1qen`, `pllsai1ren`. -/
  | pllSai1OutputsOn
  /-- `rcc.pllsai2cfgr.modify` setting `pllsai2pen`, `pllsai2ren`. -/
  | pllSai2OutputsOn
  /-- `rcc.cfgr.modify` writing `sw`, `hpre`, `ppre2`, `stopwuck`, `ppre1`. -/
  | cfgrMain (sw hpre ppre2 : Nat) (stopwuck : Bool) (ppre1 : Nat)
  /-- `rcc.cr.modify` writing `csson`. -/
  | cssOn (b : Bool)
  /-- `rcc.ccipr.modify` writing `clk48sel`. -/
  | clk48Sel (src : Nat)
  /-- `rcc.crrcr.modify` setting `hsi48on`. -/
  | hsi48On
  /-- `rcc.cr.modify` writing `msirange` and `msirgsel` only
  (`change_msi_speed`). -/
  | msiRange (range : Nat)
  /-- The `rcc_en_reset!(apb2, syscfg, rcc)` macro invocation. -/
  | syscfgEnReset
deriving DecidableEq

/-- The register writes `Clocks::setup` performs after validation passes
(l_g.rs lines 453-780), in program order, for the L4 (`l4` + `l4x6`)
build. -/
def Clocks.setup_writes (c : Clocks) : List RegWrite :=
  let sysclk := (calc_sysclock c.input_src c.pllm c.plln c.pllr).2
  let hclk := sysclk / c.hclk_prescaler.value
  -- l_g.rs lines 539-604: enable the selected oscillator (or the PLL's
  -- nested source) and wait until ready.
  let osc_writes : List RegWrite :=
    match c.input_src with
    | InputSrc.Msi range => [RegWrite.msiOff, RegWrite.msiConfig range.bits]
    | InputSrc.Hse _ => [RegWrite.hseOn]
    | InputSrc.Hsi => [RegWrite.hsiOn]
    | InputSrc.Pll pll_src =>
      match pll_src with
      | PllSrc.Msi range => [RegWrite.msiConfig range.bits]
      | PllSrc.Hse _ => [RegWrite.hseOn]
      | PllSrc.Hsi => [RegWrite.hsiOn]
      | PllSrc.none => []
  -- l_g.rs lines 611-707: disable the PLL, configure it, re-enable it and
  -- its outputs.
  let pll_writes : List RegWrite :=
    match c.input_src with
    | InputSrc.Pll pll_src =>
      [RegWrite.pllOn false,
       RegWrite.pllCfg pll_src.bits c.plln c.pllm.bits c.pllr.bits]
      ++ (if c.sai1_enabled then [RegWrite.pllSai1N c.pll_sai1_mul] else [])
      ++ (if c.sai2_enabled then [RegWrite.pllSai2N c.pll_sai2_mul] else [])
      ++ [RegWrite.pllOn true]
      ++ (if c.sai1_enabled then [RegWrite.pllSai1On] else [])
      ++ (if c.sai2_enabled then [RegWrite.pllSai2On] else [])
      ++ [RegWrite.pllOutputsOn]
      ++ (if c.sai1_enabled then [RegWrite.pllSai1OutputsOn] else [])
      ++ (if c.sai2_enabled then [RegWrite.pllSai2OutputsOn] else [])
    | _ => []
  -- l_g.rs lines 741-774 (L4/L5 arm): power-saving cleanup of the MSI.
  let cleanup_writes : List RegWrite :=
    match c.input_src with
    | InputSrc.Msi _ => []
    | InputSrc.Pll pll_src =>
      match pll_src with
      | PllSrc.Msi _ => []
      | _ => [RegWrite.msiOff]
    | _ => [RegWrite.msiOff]
  RegWrite.latency (flash_latency_l4 hclk)
    :: osc_writes
    ++ [RegWrite.hseBypass c.hse_bypass]
    ++ pll_writes
    ++ [RegWrite.cfgrMain c.input_src.bits c.hclk_prescaler.bits
          c.apb2_prescaler.bits (c.stop_wuck.bits != 0) c.apb1_prescaler.bits,
        RegWrite.cssOn c.security_system,
        RegWrite.clk48Sel c.clk48_src.bits]
    ++ (if c.hsi48_on then [RegWrite.hsi48On] else [])
    ++ cleanup_writes
    ++ [RegWrite.syscfgEnReset]

/-- `Clocks::setup` (l_g.rs lines 448-781): validate first; on `NotValid`
return `Err(SpeedError)` having performed no write, otherwise perform the
write sequence and return `Ok(())`. -/
def Clocks.setup (c : Clocks) : Except SpeedError Unit × List RegWrite :=
  match c.validate_speeds with
  | ClocksValid.NotValid => (Except.error {}, [])
  | ClocksValid.Valid => (Except.ok (), c.setup_writes)

/-- Result of `Clocks::change_msi_speed`: either a `panic!` (carrying the
writes performed before panicking) or normal return with the updated
`self` and the writes performed. -/
inductive ChangeMsiResult
  | panicked (writes : List RegWrite)
  | ok (clocks : Clocks) (writes : List RegWrite)
deriving DecidableEq

/-- `Clocks::change_msi_speed` (l_g.rs lines 884-902): panics unless the
input source is MSI, before any register write; otherwise writes
`msirange`/`msirgsel` and records the new range in `self.input_src`. -/
def Clocks.change_msi_speed (c : Clocks) (range : MsiRange) : ChangeMsiResult :=
  match c.input_src with
  | InputSrc.Msi _ =>
    ChangeMsiResult.ok { c with input_src := InputSrc.Msi range }
      [RegWrite.msiRange range.bits]
  | _ => ChangeMsiResult.panicked []

/-- Result of `Clocks::enable_msi_48`: either a `panic!` (carrying the
writes performed before panicking) or normal return with the writes
performed. -/
inductive EnableMsi48Result
  | panicked (writes : List RegWrite)
  | ok (writes : List RegWrite)
deriving DecidableEq

/-- `Clocks::enable_msi_48` (l_g.rs lines 908-942).  Note the source's
second `panic!` inside the `if let InputSrc::Pll` block (lines 922-925)
is NOT guarded by the inner `if let PllSrc::Msi`: it fires for every PLL
source, so every `Pll` input source panics. -/
def Clocks.enable_msi_48 (c : Clocks) : EnableMsi48Result :=
  match c.input_src with
  | InputSrc.Msi _ => EnableMsi48Result.panicked []
  | InputSrc.Pll pll_src =>
    match pll_src with
    | PllSrc.Msi _ => EnableMsi48Result.panicked []
    | _ => EnableMsi48Result.panicked []
  | _ => EnableMsi48Result.ok [RegWrite.msiOff, RegWrite.msiConfig MsiRange.R48M.bits]

/-- C1: For every Configuration whose input source is the PLL, the derived
system clock equals `input_frequency / m * n / r` computed left-to-right
in truncating u32 arithmetic, where `input_frequency` is the resolved
PLL-source frequency (16 MHz for HSI, the carried parameter for HSE, the
range's decoded value for MSI, as `pll_input_freq` states); and the
default L4 Configuration (HSI-fed PLL, pllm=Div2, plln=20, pllr=Div2, all
prescalers Div1) yields exactly 80_000_000 Hz. -/
theorem pll_sysclock_formula :
    (∀ (src : PllSrc) (m : Pllm) (n : Nat) (r : Pllr),
      calc_sysclock (InputSrc.Pll src) m n r
        = (pll_input_freq src,
           pll_input_freq src / m.value * n % 4294967296 / r.value)) ∧
    Clocks.defaultCfg.sysclk = 80000000 := by
  constructor
  · intro src m n r
    cases src <;> rfl
  · decide

/-- C2: any PLL multiplier field (`plln`, `pll_sai1_mul`, `pll_sai2_mul`)
outside the L4 family's inclusive range 7..=86 makes `validate_speeds`
return `NotValid`, regardless of the frequencies the configuration would
produce (no frequency hypothesis appears below). -/
theorem validate_rejects_out_of_range_multiplier (c : Clocks)
    (h : c.plln < 7 ∨ 86 < c.plln ∨ c.pll_sai1_mul < 7 ∨ 86 < c.pll_sai1_mul
        ∨ c.pll_sai2_mul < 7 ∨ 86 < c.pll_sai2_mul) :
    c.validate_speeds = ClocksValid.NotValid := by
  unfold Clocks.validate_speeds
  rw [if_pos h]

theorem validate_rejects_out_of_range_multiplier_witness :
    ({ Clocks.defaultCfg with plln := 100 } : Clocks).validate_speeds
      = ClocksValid.NotValid :=
  validate_rejects_out_of_range_multiplier _ (Or.inr (Or.inl (by decide)))

/-- C3: once the multiplier range check passes, exceeding the L4 ceiling
of 80 MHz on the system clock, HCLK, APB1 or APB2 — each an independent
trigger, stated as a disjunction — makes `validate_speeds` return
`NotValid`. -/
theorem validate_rejects_over_ceiling (c : Clocks)
    (hn : ¬(c.plln < 7 ∨ 86 < c.plln ∨ c.pll_sai1_mul < 7 ∨ 86 < c.pll_sai1_mul
        ∨ c.pll_sai2_mul < 7 ∨ 86 < c.pll_sai2_mul))
    (h : 80000000 < c.sysclk ∨ 80000000 < c.hclk ∨ 80000000 < c.apb1
        ∨ 80000000 < c.apb2) :
    c.validate_speeds = ClocksValid.NotValid := by
  unfold Clocks.validate_speeds
  rw [if_neg hn]
  dsimp only
  split_ifs <;> first | rfl | omega

theorem validate_rejects_over_ceiling_witness :
    ({ Clocks.defaultCfg with plln := 86 } : Clocks).validate_speeds
      = ClocksValid.NotValid :=
  validate_rejects_over_ceiling _ (by decide) (Or.inl (by decide))

/-- C4: whenever `validate_speeds` returns `NotValid`, `setup` returns
`Err(SpeedError)` with an empty register-write trace: no RCC or FLASH
field is touched. -/
theorem setup_err_no_writes_on_invalid (c : Clocks)
    (h : c.validate_speeds = ClocksValid.NotValid) :
    c.setup = (Except.error {}, ([] : List RegWrite)) := by
  unfold Clocks.setup
  rw [h]

theorem setup_err_no_writes_on_invalid_witness :
    ({ Clocks.defaultCfg with plln := 0 } : Clocks).setup
      = (Except.error {}, ([] : List RegWrite)) :=
  setup_err_no_writes_on_invalid _ (by decide)

/-- C5: each family's flash wait-state mapping is monotonic non-decreasing
in HCLK, uses inclusive upper breakpoints (a frequency equal to a
breakpoint maps to the lower tier's code, one Hz more to the next),
anything above the family's highest breakpoint maps to the family's
maximum wait-state code, and the L4 code programmed by `setup` is the
very first register write, `latency (flash_latency_l4 hclk)`. -/
theorem flash_latency_monotone_inclusive :
    ((∀ a b : Nat, a ≤ b → flash_latency_l4 a ≤ flash_latency_l4 b) ∧
     (∀ a b : Nat, a ≤ b → flash_latency_l5 a ≤ flash_latency_l5 b) ∧
     (∀ a b : Nat, a ≤ b → flash_latency_g0 a ≤ flash_latency_g0 b) ∧
     (∀ a b : Nat, a ≤ b → flash_latency_g4 a ≤ flash_latency_g4 b)) ∧
    (flash_latency_l4 16000000 = 0 ∧ flash_latency_l4 16000001 = 1 ∧
     flash_latency_l4 32000000 = 1 ∧ flash_latency_l4 48000000 = 2 ∧
     flash_latency_l4 64000000 = 3 ∧
     flash_latency_l5 20000000 = 0 ∧ flash_latency_l5 40000000 = 1 ∧
     flash_latency_l5 60000000 = 2 ∧ flash_latency_l5 80000000 = 3 ∧
     flash_latency_l5 100000000 = 4 ∧
     flash_latency_g0 24000000 = 0 ∧ flash_latency_g0 48000000 = 1 ∧
     flash_latency_g4 34000000 = 0 ∧ flash_latency_g4 68000000 = 1 ∧
     flash_latency_g4 102000000 = 2 ∧ flash_latency_g4 136000000 = 3) ∧
    ((∀ f : Nat, 64000000 < f → flash_latency_l4 f = 4) ∧
     (∀ f : Nat, 100000000 < f → flash_latency_l5 f = 5) ∧
     (∀ f : Nat, 48000000 < f → flash_latency_g0 f = 2) ∧
     (∀ f : Nat, 136000000 < f → flash_latency_g4 f = 4)) ∧
    (∀ c : Clocks, ∃ rest,
      c.setup_writes = RegWrite.latency (flash_latency_l4 c.hclk) :: rest) := by
  refine ⟨⟨?_, ?_, ?_, ?_⟩, by decide, ⟨?_, ?_, ?_, ?_⟩, ?_⟩
  · intro a b hab
    unfold flash_latency_l4
    split_ifs <;> omega
  · intro a b hab
    unfold flash_latency_l5
    split_ifs <;> omega
  · intro a b hab
    unfold flash_latency_g0
    split_ifs <;> omega
  · intro a b hab
    unfold flash_latency_g4
    split_ifs <;> omega
  · intro f hf
    unfold flash_latency_l4
    split_ifs <;> omega
  · intro f hf
    unfold flash_latency_l5
    split_ifs <;> omega
  · intro f hf
    unfold flash_latency_g0
    split_ifs <;> omega
  · intro f hf
    unfold flash_latency_g4
    split_ifs <;> omega
  · intro c
    exact ⟨_, rfl⟩

theorem flash_latency_monotone_inclusive_witness :
    flash_latency_l4 10000000 ≤ flash_latency_l4 70000000 ∧
    flash_latency_l5 200000000 = 5 :=
  ⟨flash_latency_monotone_inclusive.1.1 10000000 70000000 (by decide),
   flash_latency_monotone_inclusive.2.2.1.2.1 200000000 (by decide)⟩

/-- C6 (code behavior at the failing input): the default Configuration has
input source `Pll(PllSrc::Hsi)` — MSI is not the system source, directly
or via the PLL — yet `enable_msi_48` panics, because the source's second
`panic!` inside the `if let InputSrc::Pll` block is unconditional.  The
claim (and the function's own doc comment and panic message) permit this
call. -/
theorem enable_msi_48_panics_on_pll_hsi :
    Clocks.defaultCfg.enable_msi_48 = EnableMsi48Result.panicked [] := rfl

/-- C7: `change_msi_speed` with any input source other than MSI panics
before performing any register write. -/
theorem change_msi_speed_panics_when_not_msi (c : Clocks) (range : MsiRange)
    (h : ∀ r : MsiRange, c.input_src ≠ InputSrc.Msi r) :
    c.change_msi_speed range = ChangeMsiResult.panicked [] := by
  unfold Clocks.change_msi_speed
  cases hs : c.input_src with
  | Msi r => exact absurd hs (h r)
  | Hsi => rfl
  | Hse f => rfl
  | Pll s => rfl

theorem change_msi_speed_panics_when_not_msi_witness :
    Clocks.defaultCfg.change_msi_speed MsiRange.R4M
      = ChangeMsiResult.panicked [] :=
  change_msi_speed_panics_when_not_msi _ _ (fun r h => by cases h)

/-- C8: the APB1/APB2 timer frequency equals the bus frequency when the
prescaler is Div1, and twice the bus frequency otherwise (stated both in
wrapped u32 form and, under no overflow, as exact doubling); concretely,
the default config gives an 80 MHz APB1 bus with an 80 MHz timer clock,
and APB1 prescaler Div2 gives a 40 MHz bus with an 80 MHz timer clock. -/
theorem apb_timer_doubling :
    (∀ c : Clocks, c.apb1_prescaler = ApbPrescaler.Div1 → c.apb1_timer = c.apb1) ∧
    (∀ c : Clocks, c.apb1_prescaler ≠ ApbPrescaler.Div1 →
      c.apb1_timer = c.apb1 * 2 % 4294967296) ∧
    (∀ c : Clocks, c.apb1_prescaler ≠ ApbPrescaler.Div1 → c.apb1 * 2 < 4294967296 →
      c.apb1_timer = 2 * c.apb1) ∧
    (∀ c : Clocks, c.apb2_prescaler = ApbPrescaler.Div1 → c.apb2_timer = c.apb2) ∧
    (∀ c : Clocks, c.apb2_prescaler ≠ ApbPrescaler.Div1 →
      c.apb2_timer = c.apb2 * 2 % 4294967296) ∧
    (∀ c : Clocks, c.apb2_prescaler ≠ ApbPrescaler.Div1 → c.apb2 * 2 < 4294967296 →
      c.apb2_timer = 2 * c.apb2) ∧
    (Clocks.defaultCfg.apb1 = 80000000 ∧
     Clocks.defaultCfg.apb1_timer = 80000000) ∧
    (({ Clocks.defaultCfg with apb1_prescaler := ApbPrescaler.Div2 } : Clocks).apb1
        = 40000000 ∧
     ({ Clocks.defaultCfg with apb1_prescaler := ApbPrescaler.Div2 } : Clocks).apb1_timer
        = 80000000) := by
  refine ⟨?_, ?_, ?_, ?_, ?_, ?_, by decide, by decide⟩
  · intro c h
    unfold Clocks.apb1_timer
    rw [if_pos h]
  · intro c h
    unfold Clocks.apb1_timer
    rw [if_neg h]
  · intro c h hlt
    unfold Clocks.apb1_timer
    rw [if_neg h]
    omega
  · intro c h
    unfold Clocks.apb2_timer
    rw [if_pos h]
  · intro c h
    unfold Clocks.apb2_timer
    rw [if_neg h]
  · intro c h hlt
    unfold Clocks.apb2_timer
    rw [if_neg h]
    omega

theorem apb_timer_doubling_witness :
    Clocks.defaultCfg.apb1_timer = Clocks.defaultCfg.apb1 ∧
    ({ Clocks.defaultCfg with apb1_prescaler := ApbPrescaler.Div2 } : Clocks).apb1_timer
      = 2 * ({ Clocks.defaultCfg with apb1_prescaler := ApbPrescaler.Div2 } : Clocks).apb1 :=
  ⟨apb_timer_doubling.1 _ rfl,
   apb_timer_doubling.2.2.1 _ (by decide) (by decide)⟩

/-- C9: for a valid Configuration whose input source is the PLL, the flash
wait-state (latency) write is the very first register write of `setup`,
and a write setting the PLL enable bit occurs in the remaining trace —
hence strictly after the latency write. -/
theorem latency_write_precedes_pll_enable (c : Clocks) (src : PllSrc)
    (hv : c.validate_speeds = ClocksValid.Valid)
    (hs : c.input_src = InputSrc.Pll src) :
    ∃ ws rest, c.setup = (Except.ok (), RegWrite.latency ws :: rest) ∧
      RegWrite.pllOn true ∈ rest := by
  unfold Clocks.setup
  rw [hv]
  refine ⟨_, _, rfl, ?_⟩
  rw [hs]
  simp [List.mem_append]

theorem latency_write_precedes_pll_enable_witness :
    ∃ ws rest,
      Clocks.defaultCfg.setup = (Except.ok (), RegWrite.latency ws :: rest) ∧
      RegWrite.pllOn true ∈ rest :=
  latency_write_precedes_pll_enable Clocks.defaultCfg PllSrc.Hsi (by decide) rfl

/-- C10: with input source `Pll(PllSrc::None)` and all multiplier fields
in range, `calc_sysclock` resolves the PLL input frequency to 0 and the
system clock to 0 Hz, `validate_speeds` returns `Valid` (0 Hz exceeds no
ceiling), and `setup` proceeds past validation and returns `Ok`. -/
theorem pll_src_none_zero_valid_ok (c : Clocks)
    (hs : c.input_src = InputSrc.Pll PllSrc.none)
    (hn : ¬(c.plln < 7 ∨ 86 < c.plln ∨ c.pll_sai1_mul < 7 ∨ 86 < c.pll_sai1_mul
        ∨ c.pll_sai2_mul < 7 ∨ 86 < c.pll_sai2_mul)) :
    calc_sysclock c.input_src c.pllm c.plln c.pllr = (0, 0) ∧
    c.validate_speeds = ClocksValid.Valid ∧
    (c.setup).1 = Except.ok () := by
  have hcalc : calc_sysclock c.input_src c.pllm c.plln c.pllr = (0, 0) := by
    rw [hs]
    unfold calc_sysclock
    simp
  have hsys : c.sysclk = 0 := by
    unfold Clocks.sysclk
    rw [hcalc]
  have hhclk : c.hclk = 0 := by
    unfold Clocks.hclk
    rw [hsys]
    exact Nat.zero_div _
  have hapb1 : c.apb1 = 0 := by
    unfold Clocks.apb1
    rw [hhclk]
    exact Nat.zero_div _
  have hapb2 : c.apb2 = 0 := by
    unfold Clocks.apb2
    rw [hhclk]
    exact Nat.zero_div _
  have hv : c.validate_speeds = ClocksValid.Valid := by
    unfold Clocks.validate_speeds
    rw [if_neg hn]
    dsimp only
    rw [hsys, hhclk, hapb1, hapb2]
    rfl
  refine ⟨hcalc, hv, ?_⟩
  unfold Clocks.setup
  rw [hv]

theorem pll_src_none_zero_valid_ok_witness :
    calc_sysclock
        ({ Clocks.defaultCfg with input_src := InputSrc.Pll PllSrc.none } : Clocks).input_src
        Clocks.defaultCfg.pllm Clocks.defaultCfg.plln Clocks.defaultCfg.pllr
      = (0, 0) ∧
    ({ Clocks.defaultCfg with input_src := InputSrc.Pll PllSrc.none } : Clocks).validate_speeds
      = ClocksValid.Valid ∧
    (({ Clocks.defaultCfg with input_src := InputSrc.Pll PllSrc.none } : Clocks).setup).1
      = Except.ok () :=
  pll_src_none_zero_valid_ok _ rfl (by decide)
